import Mathlib

/-!
Verification of the Injective pooled-trading-vault contracts
(`contracts/perpetual-vault` and `contracts/spot-vault`).

This file is a shallow embedding of the contract code into Lean:

* `FPDecimal` models `injective_math::FPDecimal` as an unsigned 18-decimal
  fixed-point number (represented value = `num / 10^18`); every quantity that
  flows through the verified paths (amounts, balances, oracle prices, shares)
  is nonnegative.  Fixed-point multiplication, division and rescaling truncate
  toward zero, as the Rust library does.
* `Uint128` values are modelled as `Nat`.  Addition, multiplication and
  division are modelled as the exact `Nat` operations; the subtraction
  underflow panic - the overflow behaviour the contracts can actually hit,
  because the fee counters are subtracted from freshly queried balances with
  the plain `-` operator - is modelled explicitly by `checkedSub`, which
  returns `VmResult.panic` exactly when the Rust `Uint128` subtraction would
  abort the transaction.
* Each contract entry point becomes a function from the persisted storage
  (`State`), the externally queried data (`Env`: bank balances, LP-token total
  supply, oracle prices) and the call arguments to a `VmResult` holding the
  new storage and the list of emitted outbound messages.  A `VmResult.err`
  or `VmResult.panic` invocation commits nothing, mirroring the host's
  transactional semantics.
* Bech32 address validation (`api.addr_validate`) is abstracted to rejecting
  the empty string, the one property the contracts rely on (the unset
  liquidity-token sentinel is `Addr::unchecked("")`).
* The `asset.rs` helper module is shared verbatim between the two contracts;
  the embedding below follows the spot vault's copy, which both use with
  identical semantics.
-/

namespace Vault

/-- One unit in the 18-decimal fixed-point representation of `FPDecimal`. -/
def fpOne : Nat := 10 ^ 18

/-- `injective_math::FPDecimal`: an unsigned 18-decimal fixed-point number.
The represented value is `num / 10^18`. -/
structure FPDecimal where
  num : Nat
deriving Repr, DecidableEq

/-- `FPDecimal::from(Uint128)`: an integer, scaled to 18 decimals. -/
def FPDecimal.fromNat (n : Nat) : FPDecimal := ⟨n * fpOne⟩

/-- Fixed-point multiplication, truncating toward zero. -/
def FPDecimal.mul (x y : FPDecimal) : FPDecimal := ⟨x.num * y.num / fpOne⟩

/-- Fixed-point division, truncating toward zero. -/
def FPDecimal.div (x y : FPDecimal) : FPDecimal := ⟨x.num * fpOne / y.num⟩

/-- `FPDecimal::is_zero`. -/
def FPDecimal.isZero (x : FPDecimal) : Bool := x.num == 0

/-- The `<` comparison on `FPDecimal`. -/
def FPDecimal.lt (x y : FPDecimal) : Bool := Nat.blt x.num y.num

/-- `std::cmp::min` on `FPDecimal`. -/
def FPDecimal.fpmin (x y : FPDecimal) : FPDecimal := if x.num ≤ y.num then x else y

/-- `injective_math::scale::Scaled` for `FPDecimal`: multiply by `10^d`,
truncating toward zero when `d < 0`. -/
def FPDecimal.scaled (x : FPDecimal) (d : Int) : FPDecimal :=
  if 0 ≤ d then ⟨x.num * 10 ^ d.toNat⟩ else ⟨x.num / 10 ^ (-d).toNat⟩

/-- `u128::from(FPDecimal)`: truncate to the integer part. -/
def FPDecimal.toUint (x : FPDecimal) : Nat := x.num / fpOne

/-- The `ContractError` enum (error.rs, identical in both contracts). -/
inductive ContractError where
  | std (msg : String)
  | customError (val : String)
  | subMsgFailure (msg : String)
  | unrecognisedReply (id : Nat)
  | replyParseFailure (id : Nat) (err : String)
  | exceedHardcap
  | invalidToken
  | invalidZeroAmount
  | unauthorized
deriving Repr, DecidableEq

/-- Outcome of one contract invocation: a successful value, a typed
`ContractError`, or a Rust panic (e.g. `Uint128` underflow), which the host
reports as a VM abort rather than as a contract error.  Errors and panics
alike revert the invocation, committing no state and emitting no messages. -/
inductive VmResult (α : Type) where
  | ok (value : α)
  | err (e : ContractError)
  | panic (msg : String)
deriving Repr, DecidableEq

/-- Outbound instructions emitted by the vaults. -/
inductive VaultMsg where
  | mint (contractAddr recipient : String) (amount : Nat)
  | burn (contractAddr : String) (amount : Nat)
  | bankSend (toAddress : String) (amount : List (String × Nat))
  | createDerivativeMarketOrder (sender marketId subaccountId : String)
      (long : Bool) (quantity price margin : FPDecimal)
  | cancelDerivativeOrder (sender marketId subaccountId orderHash : String)
  | batchCreateSpotOrder (sender marketId subaccountId : String)
      (buying : Bool) (quantity price : FPDecimal)
  | cancelSpotOrder (sender marketId subaccountId orderHash : String)
deriving Repr, DecidableEq

/-- `Uint128` subtraction: `a - b` panics on underflow. -/
def checkedSub (a b : Nat) : VmResult Nat :=
  if b ≤ a then .ok (a - b) else .panic "attempt to subtract with overflow"

/-- Character admitted by `is_valid_symbol` (asset.rs): `-`, `/`, digits,
upper- and lower-case ASCII letters. -/
def validSymbolChar (c : Char) : Bool :=
  c.toNat == 45 || (47 ≤ c.toNat && c.toNat ≤ 57) ||
    (65 ≤ c.toNat && c.toNat ≤ 90) || (97 ≤ c.toNat && c.toNat ≤ 122)

/-- `is_valid_symbol` (asset.rs): length within `[3, maxLength]` and every
character admissible. -/
def is_valid_symbol (symbol : String) (maxLength : Nat) : Bool :=
  3 ≤ symbol.length && symbol.length ≤ maxLength && symbol.data.all validSymbolChar

/-- Maximum denom length (asset.rs). -/
def DENOM_MAX_LENGTH : Nat := 60

/-- `AssetInfo::check` (asset.rs): denom format validation. -/
def check_denom (denom : String) : Option ContractError :=
  if is_valid_symbol denom DENOM_MAX_LENGTH then none
  else some (.std ("Native denom is not in expected format [a-zA-Z\\-][3,60]: " ++ denom))

/-- Lookup in the `HashMap` built from the input assets by
`assert_coins_properly_sent`: a later occurrence of a denom overwrites an
earlier one. -/
def lookupInput (assets : List (String × Nat)) (denom : String) : Option Nat :=
  (assets.reverse.find? (fun p => p.1 == denom)).map (fun p => p.2)

/-- `CoinsExt::assert_coins_properly_sent` (asset.rs): every declared asset
must be a pool asset, and every attached coin must match a declared asset's
denom and amount exactly. -/
def assert_coins_properly_sent (funds : List (String × Nat))
    (input_assets : List (String × Nat)) (pool_denoms : List String) :
    Option ContractError :=
  match input_assets.find? (fun a => !(pool_denoms.contains a.1)) with
  | some a => some (.std ("Asset " ++ a.1 ++ " is not in the pool"))
  | none =>
    match funds.find? (fun c =>
        match lookupInput input_assets c.1 with
        | some amt => !(amt == c.2)
        | none => true) with
    | some c =>
      match lookupInput input_assets c.1 with
      | some _ =>
          some (.std "Native token balance mismatch between the argument and the transferred")
      | none =>
          some (.std ("Supplied coins contain " ++ c.1 ++
            " that is not in the input asset vector"))
    | none => none

/-- `api.addr_validate`, abstracted: the empty string is not a valid address. -/
def addr_validate (s : String) : VmResult String :=
  if s == "" then .err (.std "Invalid input: human address too short") else .ok s

/-- `addr_opt_validate(deps.api, &receiver)?.unwrap_or_else(|| info.sender)`. -/
def addr_opt_validate_or (receiver : Option String) (sender : String) : VmResult String :=
  match receiver with
  | some r => addr_validate r
  | none => .ok sender

/-- Fixed-point addition (exact). -/
def FPDecimal.add (x y : FPDecimal) : FPDecimal := ⟨x.num + y.num⟩

/-- The decoded payload of a token-instantiation reply, summarising the stages
of `msg.result.into_result().expect(..).data.expect(..)` and the protobuf
parse in `handle_instantiate_token_reply`: a missing result or missing data
panics via `expect`, a protobuf decode failure is a `StdError::parse_err`,
and otherwise the created contract's address is extracted. -/
inductive TokenReplyData where
  | missingResult
  | missingData
  | parseFailure
  | address (a : String)
deriving Repr, DecidableEq

namespace Perp

/-- `ContractInfo` of the perpetual vault (state.rs). -/
structure ContractInfo where
  market_id : String
  quote_denom : String
  quote_decimal : Nat
  hardcap : Nat
  liquidity_token : String
  contract_subaccount_id : String
deriving Repr, DecidableEq

/-- The perpetual vault's persisted storage: the `CONTRACT_INFO` item, the
`FEE_COLLECTED` counter, and the `cw_ownable` owner. -/
structure State where
  contract_info : ContractInfo
  fee_collected : Nat
  owner : String
deriving Repr, DecidableEq

/-- Externally queried data: this contract's bank balances (keyed by denom)
and the LP token's total supply. -/
structure Env where
  contract_address : String
  bank_balance : String → Nat
  total_supply : Nat

/-- `get_share_in_assets` (perpetual contract.rs, lines 659-693): the
fee-exclusive quote refund for `share` burned LP tokens, plus - whenever the
quote denom is not `INJ` - the proportional share of the contract's `INJ`
balance.  Returns the pair of `Asset`s `[quote refund, INJ amount]`. -/
def get_share_in_assets (env : Env) (st : State) (share : Nat) (total_share : Nat) :
    VmResult ((String × Nat) × (String × Nat)) :=
  match checkedSub (env.bank_balance st.contract_info.quote_denom) st.fee_collected with
  | .ok balance =>
    let refund_amount := balance * share / total_share
    let fee_denom := "INJ"
    let fee_amount :=
      if st.contract_info.quote_denom != fee_denom then
        env.bank_balance fee_denom * share / total_share
      else 0
    .ok ((st.contract_info.quote_denom, refund_amount), (fee_denom, fee_amount))
  | .err e => .err e
  | .panic m => .panic m

/-- `withdraw` (perpetual contract.rs, lines 514-558): burn `amount` LP tokens
received through the cw20 hook and refund the proportional assets.  Only the
bound liquidity token may call it.  The storage is never written. -/
def withdraw (env : Env) (st : State) (info_sender : String) (sender : String)
    (amount : Nat) : VmResult (State × List VaultMsg) :=
  if info_sender != st.contract_info.liquidity_token then .err .unauthorized
  else if amount == 0 then .err (.customError "Can't withdraw zero amount")
  else
    let total_share := env.total_supply
    match get_share_in_assets env st amount total_share with
    | .ok refund_assets =>
      let msgs := [VaultMsg.burn st.contract_info.liquidity_token amount]
        ++ (if refund_assets.1.2 != 0 then [VaultMsg.bankSend sender [refund_assets.1]] else [])
        ++ (if refund_assets.2.2 != 0 then [VaultMsg.bankSend sender [refund_assets.2]] else [])
      .ok (st, msgs)
    | .err e => .err e
    | .panic m => .panic m

/-- `convert_to_shares` (perpetual contract.rs, lines 632-657): shares minted
for a scaled deposit `amount`.  If the 12-decimal-rescaled total LP supply is
zero the share equals `amount`; otherwise it is
`total_share_scaled * amount / tradable_balance_scaled`, where the tradable
balance is the freshly queried quote balance minus `FEE_COLLECTED`. -/
def convert_to_shares (env : Env) (st : State) (amount : FPDecimal) (decimal : Nat) :
    VmResult FPDecimal :=
  let total_share := (FPDecimal.fromNat env.total_supply).scaled (-12)
  if total_share.isZero then .ok amount
  else
    match checkedSub (env.bank_balance st.contract_info.quote_denom) st.fee_collected with
    | .ok b =>
      let balance := (FPDecimal.fromNat b).scaled (-(decimal : Int))
      .ok ((total_share.mul amount).div balance)
    | .err e => .err e
    | .panic m => .panic m

/-- `deposit` (perpetual contract.rs, lines 254-335): validate the single
declared asset against the attached funds, scale it, convert it to shares,
enforce the nonzero-share and hardcap checks and emit the mint instruction.
The storage is never written. -/
def deposit (env : Env) (st : State) (assets : List (String × Nat))
    (funds : List (String × Nat)) (sender : String) (receiver : Option String) :
    VmResult (State × List VaultMsg) :=
  match assets with
  | [asset0] =>
    match check_denom asset0.1 with
    | some e => .err e
    | none =>
      let supported := [st.contract_info.quote_denom]
      match assert_coins_properly_sent funds assets supported with
      | some e => .err e
      | none =>
        match assets.find? (fun a => a.1 == st.contract_info.quote_denom) with
        | none => .panic "Wrong asset info is given"
        | some a =>
          let amount := a.2
          let scaled_amount :=
            (FPDecimal.fromNat amount).scaled (-(st.contract_info.quote_decimal : Int))
          if scaled_amount.isZero then .err .invalidZeroAmount
          else
            match convert_to_shares env st scaled_amount st.contract_info.quote_decimal with
            | .err e => .err e
            | .panic m => .panic m
            | .ok s =>
              let share := (s.scaled 12).toUint
              if share == 0 then .err (.customError "Zero share amount")
              else
                match addr_opt_validate_or receiver sender with
                | .err e => .err e
                | .panic m => .panic m
                | .ok recv =>
                  let total_share := env.total_supply
                  if total_share + share > st.contract_info.hardcap then .err .exceedHardcap
                  else .ok (st, [VaultMsg.mint st.contract_info.liquidity_token recv share])
  | _ => .err (.std "assets must contain exactly one element")

/-- `try_swap` (perpetual contract.rs, lines 337-391): owner-gated derivative
market order.  The numeric rendering inside the too-low-balance error message
is abstracted to a fixed string. -/
def try_swap (env : Env) (st : State) (sender : String) (funds : List (String × Nat))
    (long : Bool) (quantity price margin : FPDecimal) : VmResult (State × List VaultMsg) :=
  if !(sender == st.owner) then .err .unauthorized
  else
    let min_amount := price.mul quantity
    if !funds.isEmpty then .err (.customError "Do not provide funds!")
    else
      match checkedSub (env.bank_balance st.contract_info.quote_denom) st.fee_collected with
      | .err e => .err e
      | .panic m => .panic m
      | .ok b =>
        if (FPDecimal.fromNat b).lt min_amount then
          .err (.customError "Swap: balance below min_amount")
        else
          .ok (st, [VaultMsg.createDerivativeMarketOrder env.contract_address
            st.contract_info.market_id st.contract_info.contract_subaccount_id
            long quantity price margin])

/-- `try_cancel_order` (perpetual contract.rs, lines 393-418): owner-gated,
fire-and-forget cancel instruction. -/
def try_cancel_order (env : Env) (st : State) (sender : String) (order_hash : String) :
    VmResult (State × List VaultMsg) :=
  if !(sender == st.owner) then .err .unauthorized
  else
    .ok (st, [VaultMsg.cancelDerivativeOrder env.contract_address
      st.contract_info.market_id st.contract_info.contract_subaccount_id order_hash])

/-- `add_fee` (perpetual contract.rs, lines 420-435): owner-gated unchecked
increment of `FEE_COLLECTED`. -/
def add_fee (st : State) (sender : String) (fee : Nat) : VmResult (State × List VaultMsg) :=
  if !(sender == st.owner) then .err .unauthorized
  else .ok ({ st with fee_collected := st.fee_collected + fee }, [])

/-- `withdraw_fee` (perpetual contract.rs, lines 437-484): owner-gated fee
withdrawal; rejects a zero request and a request above the counter. -/
def withdraw_fee (st : State) (sender : String) (fee : Nat) :
    VmResult (State × List VaultMsg) :=
  if !(sender == st.owner) then .err .unauthorized
  else if fee == 0 then .err (.customError "Can't withdraw zero fees")
  else if st.fee_collected < fee then .err (.customError "Insufficient fee accrued")
  else
    .ok ({ st with fee_collected := st.fee_collected - fee },
      [VaultMsg.bankSend sender [(st.contract_info.quote_denom, fee)]])

/-- `handle_instantiate_token_reply` (perpetual contract.rs, lines 117-145):
bind the created LP-token address into `CONTRACT_INFO`, failing with an
authorization error when the field is already bound. -/
def handle_instantiate_token_reply (st : State) (data : TokenReplyData) :
    VmResult (State × List VaultMsg) :=
  if !(st.contract_info.liquidity_token == "") then .err .unauthorized
  else
    match data with
    | .missingResult => .panic "no result available"
    | .missingData => .panic "no data available"
    | .parseFailure => .err (.std "failed to parse data")
    | .address a =>
      match addr_validate a with
      | .ok addr =>
        .ok ({ st with contract_info := { st.contract_info with liquidity_token := addr } }, [])
      | .err e => .err e
      | .panic m => .panic m

/-- `get_tokens_for_shares` (perpetual contract.rs, lines 571-588): the
fee-exclusive quote amount backing `share` LP tokens. -/
def get_tokens_for_shares (env : Env) (st : State) (share : Nat) : VmResult Nat :=
  match checkedSub (env.bank_balance st.contract_info.quote_denom) st.fee_collected with
  | .ok balance => .ok (balance * share / env.total_supply)
  | .err e => .err e
  | .panic m => .panic m

/-- `get_total_liquidity` (perpetual contract.rs, lines 590-599). -/
def get_total_liquidity (env : Env) (st : State) : VmResult Nat :=
  checkedSub (env.bank_balance st.contract_info.quote_denom) st.fee_collected

end Perp

namespace Spot

/-- `ContractInfo` of the spot vault (state.rs). -/
structure ContractInfo where
  market_id : String
  base_denom : String
  quote_denom : String
  base_decimal : Nat
  quote_decimal : Nat
  base_price_id : String
  quote_price_id : String
  hardcap : Nat
  liquidity_token : String
  contract_subaccount_id : String
deriving Repr, DecidableEq

/-- The spot vault's persisted storage: `CONTRACT_INFO`, the two fee counters
`BASE_FEE_COLLECTED` and `QUOTE_FEE_COLLECTED`, and the `cw_ownable` owner. -/
structure State where
  contract_info : ContractInfo
  base_fee_collected : Nat
  quote_fee_collected : Nat
  owner : String
deriving Repr, DecidableEq

/-- Externally queried data: bank balances, the LP token's total supply, and
the pyth price feed (price and sample timestamp keyed by price id). -/
structure Env where
  contract_address : String
  bank_balance : String → Nat
  total_supply : Nat
  pyth_price : String → FPDecimal
  pyth_timestamp : String → Int
  block_time : Int

/-- `PRICE_VALID_DURATION` (spot contract.rs, line 32): 60 seconds. -/
def PRICE_VALID_DURATION : Int := 60

/-- `get_prices` (spot contract.rs, lines 843-872): fetch both pyth prices,
rejecting either whose sample timestamp is older than 60 seconds. -/
def get_prices (env : Env) (st : State) : VmResult (FPDecimal × FPDecimal) :=
  let base_price := env.pyth_price st.contract_info.base_price_id
  let quote_price := env.pyth_price st.contract_info.quote_price_id
  if env.pyth_timestamp st.contract_info.base_price_id <
      env.block_time - PRICE_VALID_DURATION then
    .err (.std "Price too old")
  else if env.pyth_timestamp st.contract_info.quote_price_id <
      env.block_time - PRICE_VALID_DURATION then
    .err (.std "Price too old")
  else .ok (base_price, quote_price)

/-- `convert_to_shares` (spot contract.rs, lines 748-784): shares minted for
the scaled actual deposits at the given prices.  If the 12-decimal-rescaled
total LP supply is zero the share equals the total deposit value; otherwise
`total_share * total_deposit_value / total_value`, where the pool value sums
the fee-exclusive scaled balances weighted by the prices. -/
def convert_to_shares (env : Env) (st : State) (amounts : FPDecimal × FPDecimal)
    (prices : FPDecimal × FPDecimal) (decimals : Nat × Nat) : VmResult FPDecimal :=
  let total_share := (FPDecimal.fromNat env.total_supply).scaled (-12)
  let total_deposit_value := (amounts.1.mul prices.1).add (amounts.2.mul prices.2)
  if total_share.isZero then .ok total_deposit_value
  else
    match checkedSub (env.bank_balance st.contract_info.base_denom) st.base_fee_collected with
    | .err e => .err e
    | .panic m => .panic m
    | .ok b0 =>
      match checkedSub (env.bank_balance st.contract_info.quote_denom)
          st.quote_fee_collected with
      | .err e => .err e
      | .panic m => .panic m
      | .ok b1 =>
        let balance0 := (FPDecimal.fromNat b0).scaled (-(decimals.1 : Int))
        let balance1 := (FPDecimal.fromNat b1).scaled (-(decimals.2 : Int))
        let total_value := (balance0.mul prices.1).add (balance1.mul prices.2)
        .ok ((total_share.mul total_deposit_value).div total_value)

/-- `deposit` (spot contract.rs, lines 243-388): validate the two declared
assets against the attached funds, price-balance them (the more abundant
asset is only partially consumed, the rest refunded), convert the actual
deposits to shares and emit mint and refund instructions.  The storage is
never written. -/
def deposit (env : Env) (st : State) (assets : List (String × Nat))
    (funds : List (String × Nat)) (sender : String) (receiver : Option String) :
    VmResult (State × List VaultMsg) :=
  match assets with
  | [asset0, asset1] =>
    match check_denom asset0.1 with
    | some e => .err e
    | none =>
      match check_denom asset1.1 with
      | some e => .err e
      | none =>
        let supported := [st.contract_info.base_denom, st.contract_info.quote_denom]
        match assert_coins_properly_sent funds assets supported with
        | some e => .err e
        | none =>
          match assets.find? (fun a => a.1 == st.contract_info.base_denom) with
          | none => .panic "Wrong asset info is given"
          | some a0 =>
            match assets.find? (fun a => a.1 == st.contract_info.quote_denom) with
            | none => .panic "Wrong asset info is given"
            | some a1 =>
              match get_prices env st with
              | .err e => .err e
              | .panic m => .panic m
              | .ok prices =>
                let scaled_amount0 :=
                  (FPDecimal.fromNat a0.2).scaled (-(st.contract_info.base_decimal : Int))
                let scaled_amount1 :=
                  (FPDecimal.fromNat a1.2).scaled (-(st.contract_info.quote_decimal : Int))
                let token0_value := scaled_amount0.mul prices.1
                let token1_value := scaled_amount1.mul prices.2
                let single_deposit_value := token0_value.fpmin token1_value
                let actual0 := single_deposit_value.div prices.1
                let actual1 := single_deposit_value.div prices.2
                if actual0.isZero || actual1.isZero then .err .invalidZeroAmount
                else
                  let unscaled_amount0 :=
                    (actual0.scaled (st.contract_info.base_decimal : Int)).toUint
                  let unscaled_amount1 :=
                    (actual1.scaled (st.contract_info.quote_decimal : Int)).toUint
                  match checkedSub a0.2 unscaled_amount0 with
                  | .err e => .err e
                  | .panic m => .panic m
                  | .ok refund0 =>
                    match checkedSub a1.2 unscaled_amount1 with
                    | .err e => .err e
                    | .panic m => .panic m
                    | .ok refund1 =>
                      let refund_assets :=
                        (if refund0 != 0 then [(st.contract_info.base_denom, refund0)] else [])
                          ++ (if refund1 != 0 then
                                [(st.contract_info.quote_denom, refund1)] else [])
                      let refund_message :=
                        if refund_assets.isEmpty then []
                        else [VaultMsg.bankSend sender refund_assets]
                      match convert_to_shares env st (actual0, actual1) prices
                          (st.contract_info.base_decimal, st.contract_info.quote_decimal) with
                      | .err e => .err e
                      | .panic m => .panic m
                      | .ok scaled_share =>
                        let share := (scaled_share.scaled 12).toUint
                        if share == 0 then .err (.customError "Zero share amount")
                        else
                          match addr_opt_validate_or receiver sender with
                          | .err e => .err e
                          | .panic m => .panic m
                          | .ok recv =>
                            if env.total_supply + share > st.contract_info.hardcap then
                              .err .exceedHardcap
                            else
                              .ok (st, [VaultMsg.mint st.contract_info.liquidity_token recv share]
                                ++ refund_message)
  | _ => .err (.std "assets must contain exactly two elements")

/-- `get_share_in_assets` (spot contract.rs, lines 786-832): the fee-exclusive
base and quote refunds for `share` burned LP tokens, plus - whenever neither
configured denom is `INJ` - the proportional share of the contract's `INJ`
balance.  Returns the triple `[base refund, quote refund, INJ amount]`. -/
def get_share_in_assets (env : Env) (st : State) (share : Nat) (total_share : Nat) :
    VmResult ((String × Nat) × (String × Nat) × (String × Nat)) :=
  match checkedSub (env.bank_balance st.contract_info.base_denom) st.base_fee_collected with
  | .err e => .err e
  | .panic m => .panic m
  | .ok balance0 =>
    match checkedSub (env.bank_balance st.contract_info.quote_denom)
        st.quote_fee_collected with
    | .err e => .err e
    | .panic m => .panic m
    | .ok balance1 =>
      let refund_amount0 := balance0 * share / total_share
      let refund_amount1 := balance1 * share / total_share
      let fee_denom := "INJ"
      let fee_amount :=
        if st.contract_info.base_denom != fee_denom &&
            st.contract_info.quote_denom != fee_denom then
          env.bank_balance fee_denom * share / total_share
        else 0
      .ok ((st.contract_info.base_denom, refund_amount0),
        (st.contract_info.quote_denom, refund_amount1),
        (fee_denom, fee_amount))

/-- `withdraw` (spot contract.rs, lines 604-654): burn `share_amount` LP
tokens received through the cw20 hook and transfer every nonzero entry of
`get_share_in_assets` - the base refund, the quote refund, and the third
(`INJ`) amount - to the withdrawer.  The storage is never written. -/
def withdraw (env : Env) (st : State) (info_sender sender : String) (share_amount : Nat) :
    VmResult (State × List VaultMsg) :=
  if info_sender != st.contract_info.liquidity_token then .err .unauthorized
  else if share_amount == 0 then .err (.customError "Can't withdraw zero amount")
  else
    match get_share_in_assets env st share_amount env.total_supply with
    | .err e => .err e
    | .panic m => .panic m
    | .ok refund_assets =>
      let msgs := [VaultMsg.burn st.contract_info.liquidity_token share_amount]
        ++ (if refund_assets.1.2 != 0 then [VaultMsg.bankSend sender [refund_assets.1]] else [])
        ++ (if refund_assets.2.1.2 != 0 then
              [VaultMsg.bankSend sender [refund_assets.2.1]] else [])
        ++ (if refund_assets.2.2.2 != 0 then
              [VaultMsg.bankSend sender [refund_assets.2.2]] else [])
      .ok (st, msgs)

/-- `try_swap` (spot contract.rs, lines 390-460): owner-gated spot limit order
via a batch-update-orders instruction.  The numeric rendering inside the
too-low-balance error message is abstracted to a fixed string. -/
def try_swap (env : Env) (st : State) (sender : String) (funds : List (String × Nat))
    (buying : Bool) (quantity price : FPDecimal) : VmResult (State × List VaultMsg) :=
  if !(sender == st.owner) then .err .unauthorized
  else
    let min_amount := price.mul quantity
    if !funds.isEmpty then .err (.customError "Do not provide funds!")
    else
      let source_denom :=
        if buying then st.contract_info.quote_denom else st.contract_info.base_denom
      let fee_collected :=
        if buying then st.quote_fee_collected else st.base_fee_collected
      match checkedSub (env.bank_balance source_denom) fee_collected with
      | .err e => .err e
      | .panic m => .panic m
      | .ok b =>
        if (FPDecimal.fromNat b).lt min_amount then
          .err (.customError "Swap: balance below min_amount")
        else
          .ok (st, [VaultMsg.batchCreateSpotOrder env.contract_address
            st.contract_info.market_id st.contract_info.contract_subaccount_id
            buying quantity price])

/-- `try_cancel_order` (spot contract.rs, lines 462-486): owner-gated,
fire-and-forget cancel instruction. -/
def try_cancel_order (env : Env) (st : State) (sender : String) (order_hash : String) :
    VmResult (State × List VaultMsg) :=
  if !(sender == st.owner) then .err .unauthorized
  else
    .ok (st, [VaultMsg.cancelSpotOrder env.contract_address
      st.contract_info.market_id st.contract_info.contract_subaccount_id order_hash])

/-- `add_fee` (spot contract.rs, lines 488-506): owner-gated unchecked
increments of both fee counters. -/
def add_fee (st : State) (sender : String) (base_fee quote_fee : Nat) :
    VmResult (State × List VaultMsg) :=
  if !(sender == st.owner) then .err .unauthorized
  else
    .ok ({ st with
            base_fee_collected := st.base_fee_collected + base_fee
            quote_fee_collected := st.quote_fee_collected + quote_fee }, [])

/-- `withdraw_fee` (spot contract.rs, lines 508-574): owner-gated fee
withdrawal; rejects an all-zero request and any per-asset request above its
counter, then batches the nonzero assets into one bank transfer. -/
def withdraw_fee (st : State) (sender : String) (base_fee quote_fee : Nat) :
    VmResult (State × List VaultMsg) :=
  if !(sender == st.owner) then .err .unauthorized
  else if base_fee == 0 && quote_fee == 0 then .err (.customError "Can't withdraw zero fees")
  else if st.base_fee_collected < base_fee || st.quote_fee_collected < quote_fee then
    .err (.customError "Insufficient fee accrued")
  else
    let fees := (if base_fee != 0 then [(st.contract_info.base_denom, base_fee)] else [])
      ++ (if quote_fee != 0 then [(st.contract_info.quote_denom, quote_fee)] else [])
    .ok ({ st with
            base_fee_collected := st.base_fee_collected - base_fee
            quote_fee_collected := st.quote_fee_collected - quote_fee },
      [VaultMsg.bankSend sender fees])

/-- `handle_instantiate_token_reply` (spot contract.rs, lines 119-147): bind
the created LP-token address into `CONTRACT_INFO`, failing with an
authorization error when the field is already bound. -/
def handle_instantiate_token_reply (st : State) (data : TokenReplyData) :
    VmResult (State × List VaultMsg) :=
  if !(st.contract_info.liquidity_token == "") then .err .unauthorized
  else
    match data with
    | .missingResult => .panic "no result available"
    | .missingData => .panic "no data available"
    | .parseFailure => .err (.std "failed to parse data")
    | .address a =>
      match addr_validate a with
      | .ok addr =>
        .ok ({ st with contract_info := { st.contract_info with liquidity_token := addr } }, [])
      | .err e => .err e
      | .panic m => .panic m

/-- `get_tokens_for_shares` (spot contract.rs, lines 668-691): the
fee-exclusive base and quote amounts backing `share` LP tokens. -/
def get_tokens_for_shares (env : Env) (st : State) (share : Nat) : VmResult (Nat × Nat) :=
  match checkedSub (env.bank_balance st.contract_info.base_denom) st.base_fee_collected with
  | .err e => .err e
  | .panic m => .panic m
  | .ok balance0 =>
    match checkedSub (env.bank_balance st.contract_info.quote_denom)
        st.quote_fee_collected with
    | .err e => .err e
    | .panic m => .panic m
    | .ok balance1 =>
      .ok (balance0 * share / env.total_supply, balance1 * share / env.total_supply)

end Spot

/-! ### Scenario C state (perpetual vault withdrawal)

The configuration of the spec's Scenario C, as the claim states it: total LP
supply 180,000000000000 (12-decimal shares), raw quote balance 200.000000
(6-decimal USDT), accrued fee counter 10.000000, no `INJ` balance. -/

/-- Scenario C contract configuration. -/
def scenarioCInfo : Perp.ContractInfo :=
  { market_id := "0x78c2d3af98c517b164070a739681d4bd4d293101e7ffc3a30968945329b47ec6"
    quote_denom := "USDT"
    quote_decimal := 6
    hardcap := 5000000000000000
    liquidity_token := "liquidity0000"
    contract_subaccount_id := "subaccount0" }

/-- Scenario C persisted state: 10.000000 accrued fee. -/
def scenarioCState : Perp.State :=
  { contract_info := scenarioCInfo, fee_collected := 10000000, owner := "addr0000" }

/-- Scenario C external state: raw quote balance 200.000000, LP supply
180,000000000000, zero `INJ` balance. -/
def scenarioCEnv : Perp.Env :=
  { contract_address := "inj14hj2tavq8fpesdwxxcu44rty3hh90vhujaxlnz"
    bank_balance := fun d => if d == "USDT" then 200000000 else 0
    total_supply := 180000000000000 }

/-! ### Other concrete scenarios used by the theorems below -/

/-- Scenario A persisted state: the Scenario C configuration with zero accrued
fee (fresh vault). -/
def scenarioAState : Perp.State :=
  { contract_info := scenarioCInfo, fee_collected := 0, owner := "addr0000" }

/-- Scenario A external state: zero LP supply, no balances yet. -/
def scenarioAEnv : Perp.Env :=
  { contract_address := "inj14hj2tavq8fpesdwxxcu44rty3hh90vhujaxlnz"
    bank_balance := fun _ => 0
    total_supply := 0 }

/-- The Scenario C state with the hardcap lowered to 100 share units. -/
def smallCapState : Perp.State :=
  { scenarioCState with contract_info := { scenarioCInfo with hardcap := 100 } }

/-- Scenario B contract configuration (spot vault): INJ/USDT market with
18-decimal base and 6-decimal quote. -/
def scenarioBInfo : Spot.ContractInfo :=
  { market_id := "0xd5a22be807011d5e42d5b77da3f417e22676d5de1967f3afe2cf2862d404cc2d"
    base_denom := "INJ"
    quote_denom := "USDT"
    base_decimal := 18
    quote_decimal := 6
    base_price_id := "INJ_PRICE_ID"
    quote_price_id := "USDT_PRICE_ID"
    hardcap := 5000000000000000
    liquidity_token := "liquidity0000"
    contract_subaccount_id := "subaccount0" }

/-- Scenario B persisted state: fresh vault, zero fee counters. -/
def scenarioBState : Spot.State :=
  { contract_info := scenarioBInfo
    base_fee_collected := 0
    quote_fee_collected := 0
    owner := "addr0000" }

/-- Scenario B external state: balances 10×10¹⁸ INJ and 90×10⁶ USDT, zero LP
supply, oracle prices base = 9 and quote = 1, both sampled now. -/
def scenarioBEnv : Spot.Env :=
  { contract_address := "inj14hj2tavq8fpesdwxxcu44rty3hh90vhujaxlnz"
    bank_balance := fun d =>
      if d == "INJ" then 10000000000000000000 else if d == "USDT" then 90000000 else 0
    total_supply := 0
    pyth_price := fun i => if i == "INJ_PRICE_ID" then FPDecimal.fromNat 9 else FPDecimal.fromNat 1
    pyth_timestamp := fun _ => 1000000
    block_time := 1000000 }

/-- The Scenario B state with the hardcap lowered to 100 share units. -/
def smallCapSpotState : Spot.State :=
  { scenarioBState with contract_info := { scenarioBInfo with hardcap := 100 } }

/-- A spot-vault configuration in which neither configured denom is `INJ`:
an ATOM/USDT market (both 6-decimal). -/
def atomInfo : Spot.ContractInfo :=
  { scenarioBInfo with base_denom := "ATOM", base_decimal := 6 }

/-- Persisted state for the ATOM/USDT vault, zero fee counters. -/
def atomState : Spot.State :=
  { contract_info := atomInfo
    base_fee_collected := 0
    quote_fee_collected := 0
    owner := "addr0000" }

/-- External state for the ATOM/USDT vault: balances 100.000000 ATOM,
90.000000 USDT and 10×10¹⁸ INJ, LP supply 180×10¹². -/
def atomEnv : Spot.Env :=
  { contract_address := "inj14hj2tavq8fpesdwxxcu44rty3hh90vhujaxlnz"
    bank_balance := fun d =>
      if d == "ATOM" then 100000000 else if d == "USDT" then 90000000
      else if d == "INJ" then 10000000000000000000 else 0
    total_supply := 180000000000000
    pyth_price := fun i => if i == "INJ_PRICE_ID" then FPDecimal.fromNat 9 else FPDecimal.fromNat 1
    pyth_timestamp := fun _ => 1000000
    block_time := 1000000 }

/-- External state with an extreme price ratio for the ATOM/USDT vault: the
base price is 1000 and the quote price is the smallest positive `FPDecimal`
(10⁻¹⁸), making the quote leg's value - and hence both recomputed actual
amounts - truncate to zero. -/
def extremeEnv : Spot.Env :=
  { contract_address := "inj14hj2tavq8fpesdwxxcu44rty3hh90vhujaxlnz"
    bank_balance := fun _ => 0
    total_supply := 0
    pyth_price := fun i => if i == "INJ_PRICE_ID" then FPDecimal.fromNat 1000 else ⟨1⟩
    pyth_timestamp := fun _ => 1000000
    block_time := 1000000 }

/-- Perpetual-vault external state in which the accrued fee counter
(10.000000, from `scenarioCState`) exceeds the raw quote balance 5.000000. -/
def lowBalanceEnv : Perp.Env :=
  { contract_address := "inj14hj2tavq8fpesdwxxcu44rty3hh90vhujaxlnz"
    bank_balance := fun _ => 5000000
    total_supply := 180000000000000 }

/-- Spot-vault state with a nonzero base fee counter. -/
def spotFeeState : Spot.State := { scenarioBState with base_fee_collected := 1 }

/-- Spot-vault external state with zero balances but nonzero LP supply: any
fee counter exceeds the raw balance. -/
def spotLowBalanceEnv : Spot.Env :=
  { scenarioBEnv with bank_balance := fun _ => 0, total_supply := 180000000000000 }

/-- Perpetual-vault external state with quote balance 100.000000, an `INJ`
balance of 10×10¹⁸ and LP supply 180×10¹². -/
def injRichEnv : Perp.Env :=
  { contract_address := "inj14hj2tavq8fpesdwxxcu44rty3hh90vhujaxlnz"
    bank_balance := fun d =>
      if d == "USDT" then 100000000 else if d == "INJ" then 10000000000000000000 else 0
    total_supply := 180000000000000 }

/-! ## Helper lemmas -/

/-- Rescaling the fixed-point image of an integer by `10^-12` yields zero
exactly when the integer is zero: the branch test of `convert_to_shares`
(`total_share.is_zero()` after `.scaled(-12)`) coincides with the LP total
supply being zero. -/
theorem fromNat_scaled12_isZero_iff (n : Nat) :
    ((FPDecimal.fromNat n).scaled (-12)).isZero = true ↔ n = 0 := by
  simp only [FPDecimal.fromNat, FPDecimal.scaled, FPDecimal.isZero, fpOne, beq_iff_eq]
  norm_num
  show n * 1000000000000000000 / 10 ^ (12 : Nat) = 0 ↔ n = 0
  rw [Nat.div_eq_zero_iff (by norm_num : 0 < (10 : Nat) ^ 12)]
  norm_num
  constructor
  · intro hlt
    by_contra hn
    have h1 : 1000000000000000000 ≤ n * 1000000000000000000 :=
      Nat.le_mul_of_pos_left _ (Nat.pos_of_ne_zero hn)
    omega
  · intro hn
    subst hn
    norm_num

/-- Characterisation of the perpetual vault's `convert_to_shares` on success:
the returned share is the deposit amount itself when the LP supply is zero,
and otherwise `total_share_scaled * amount / tradable_balance_scaled` with
the tradable balance the raw quote balance minus the fee counter. -/
theorem perp_convert_to_shares_ok (env : Perp.Env) (st : Perp.State)
    (amount : FPDecimal) (d : Nat) (s : FPDecimal)
    (h : Perp.convert_to_shares env st amount d = .ok s) :
    s = if env.total_supply = 0 then amount
        else (((FPDecimal.fromNat env.total_supply).scaled (-12)).mul amount).div
          ((FPDecimal.fromNat (env.bank_balance st.contract_info.quote_denom -
              st.fee_collected)).scaled (-(d : Int))) := by
  simp only [Perp.convert_to_shares, checkedSub] at h
  split at h
  next hz =>
    cases h
    rw [if_pos ((fromNat_scaled12_isZero_iff _).mp hz)]
  next hz =>
    rw [fromNat_scaled12_isZero_iff] at hz
    split at h
    next b hb =>
      cases h
      split at hb
      next =>
        cases hb
        rw [if_neg hz]
      next => cases hb
    next e he => cases h
    next m hm => cases h

/-- C1: the claim asserts that with total supply 180,000000000000 shares, raw
quote balance 200.000000, accrued fee 10.000000 and 90,000000000000 shares
burned, the emitted quote refund is exactly 85.500000.  At exactly those
inputs the code emits a refund of 95.000000 (the claim's own formula
`(200-10)*90/180` also evaluates to 95, not 85.5), so the claim is false. -/
theorem C1_counterexample :
    Perp.withdraw scenarioCEnv scenarioCState "liquidity0000" "addr0001" 90000000000000 =
      .ok (scenarioCState,
        [.burn "liquidity0000" 90000000000000,
         .bankSend "addr0001" [("USDT", 95000000)]]) ∧
    (95000000 : Nat) ≠ 85500000 := by
  exact ⟨rfl, by decide⟩

/-- Shape of every successful run of the perpetual vault's `deposit`: the
storage is returned unchanged (the function performs no store), and the single
emitted message mints the 12-decimal rescaling of `convert_to_shares`'s
result - the scaled deposit when the LP supply is zero, and otherwise
`total_share_scaled * amount_scaled / tradable_balance_scaled`. -/
theorem perp_deposit_ok_shape (env : Perp.Env) (st : Perp.State)
    (assets funds : List (String × Nat)) (sender : String) (receiver : Option String)
    (st' : Perp.State) (msgs : List VaultMsg)
    (h : Perp.deposit env st assets funds sender receiver = .ok (st', msgs)) :
    st' = st ∧
    ∃ a recv,
      assets.find? (fun x => x.1 == st.contract_info.quote_denom) = some a ∧
      msgs = [VaultMsg.mint st.contract_info.liquidity_token recv
        (((if env.total_supply = 0 then
              (FPDecimal.fromNat a.2).scaled (-(st.contract_info.quote_decimal : Int))
            else
              (((FPDecimal.fromNat env.total_supply).scaled (-12)).mul
                ((FPDecimal.fromNat a.2).scaled (-(st.contract_info.quote_decimal : Int)))).div
                ((FPDecimal.fromNat (env.bank_balance st.contract_info.quote_denom -
                    st.fee_collected)).scaled
                  (-(st.contract_info.quote_decimal : Int)))).scaled 12).toUint)] := by
  match assets with
  | [] => simp [Perp.deposit] at h
  | a0 :: a1 :: rest => simp [Perp.deposit] at h
  | [asset0] =>
    simp only [Perp.deposit] at h
    split at h
    next => cases h
    next =>
      split at h
      next => cases h
      next =>
        split at h
        next => cases h
        next a ha =>
          split at h
          next => cases h
          next hnz =>
            split at h
            next e he => cases h
            next m hm => cases h
            next s hs =>
              have hs' := perp_convert_to_shares_ok _ _ _ _ _ hs
              split at h
              next => cases h
              next hshare =>
                split at h
                next e he2 => cases h
                next m hm2 => cases h
                next recv hrecv =>
                  split at h
                  next => cases h
                  next hcap =>
                    cases h
                    exact ⟨rfl, a, recv, ha, by rw [hs']⟩

/-- C2: for every single-asset deposit that succeeds, the minted share amount
is the 12-decimal rescaling of: the scaled deposit amount itself when the LP
total supply is zero, and otherwise
`total_share_scaled * deposit_amount_scaled / tradable_balance_scaled`, where
the tradable balance is the raw queried quote balance minus the accrued fee
counter for that asset. -/
theorem C2_share_formula (env : Perp.Env) (st : Perp.State)
    (assets funds : List (String × Nat)) (sender : String) (receiver : Option String)
    (st' : Perp.State) (msgs : List VaultMsg)
    (h : Perp.deposit env st assets funds sender receiver = .ok (st', msgs)) :
    ∃ a recv,
      assets.find? (fun x => x.1 == st.contract_info.quote_denom) = some a ∧
      msgs = [VaultMsg.mint st.contract_info.liquidity_token recv
        (((if env.total_supply = 0 then
              (FPDecimal.fromNat a.2).scaled (-(st.contract_info.quote_decimal : Int))
            else
              (((FPDecimal.fromNat env.total_supply).scaled (-12)).mul
                ((FPDecimal.fromNat a.2).scaled (-(st.contract_info.quote_decimal : Int)))).div
                ((FPDecimal.fromNat (env.bank_balance st.contract_info.quote_denom -
                    st.fee_collected)).scaled
                  (-(st.contract_info.quote_decimal : Int)))).scaled 12).toUint)] :=
  (perp_deposit_ok_shape env st assets funds sender receiver st' msgs h).2

/-- C2 witness: at the Scenario C configuration (supply 180×10¹², raw quote
balance 200.000000 with accrued fee 10.000000), depositing 95.000000 quote
units mints `180 * 95 / 190 = 90` shares, i.e. 90×10¹² share units. -/
theorem C2_share_formula_witness :
    ∃ a recv,
      ([("USDT", 95000000)] : List (String × Nat)).find?
          (fun x => x.1 == scenarioCState.contract_info.quote_denom) = some a ∧
      [VaultMsg.mint "liquidity0000" "addr0001" 90000000000000] =
        [VaultMsg.mint scenarioCState.contract_info.liquidity_token recv
          (((if scenarioCEnv.total_supply = 0 then
                (FPDecimal.fromNat a.2).scaled
                  (-(scenarioCState.contract_info.quote_decimal : Int))
              else
                (((FPDecimal.fromNat scenarioCEnv.total_supply).scaled (-12)).mul
                  ((FPDecimal.fromNat a.2).scaled
                    (-(scenarioCState.contract_info.quote_decimal : Int)))).div
                  ((FPDecimal.fromNat
                      (scenarioCEnv.bank_balance scenarioCState.contract_info.quote_denom -
                        scenarioCState.fee_collected)).scaled
                    (-(scenarioCState.contract_info.quote_decimal : Int)))).scaled
              12).toUint)] :=
  C2_share_formula scenarioCEnv scenarioCState [("USDT", 95000000)] [("USDT", 95000000)]
    "addr0001" none scenarioCState [VaultMsg.mint "liquidity0000" "addr0001" 90000000000000]
    rfl

/-- C7: for every single-asset deposit made while the LP total supply is zero,
the minted share equals the deposited amount rescaled to the fixed 12-decimal
share precision; in particular, in Scenario A (hardcap 5,000 units, i.e.
5000×10¹² share units, zero existing supply, deposit of 100.000000 six-decimal
quote units) exactly 100,000000000000 share units are minted and no other
message - in particular no refund - is emitted. -/
theorem C7_zero_supply_mint :
    (∀ (env : Perp.Env) (st : Perp.State) (assets funds : List (String × Nat))
        (sender : String) (receiver : Option String) (st' : Perp.State)
        (msgs : List VaultMsg),
      env.total_supply = 0 →
      Perp.deposit env st assets funds sender receiver = .ok (st', msgs) →
      ∃ a recv,
        assets.find? (fun x => x.1 == st.contract_info.quote_denom) = some a ∧
        msgs = [VaultMsg.mint st.contract_info.liquidity_token recv
          ((((FPDecimal.fromNat a.2).scaled
              (-(st.contract_info.quote_decimal : Int))).scaled 12).toUint)]) ∧
    Perp.deposit scenarioAEnv scenarioAState [("USDT", 100000000)] [("USDT", 100000000)]
        "addr0001" none =
      .ok (scenarioAState, [VaultMsg.mint "liquidity0000" "addr0001" 100000000000000]) := by
  constructor
  · intro env st assets funds sender receiver st' msgs hzero h
    obtain ⟨-, a, recv, ha, hmsgs⟩ :=
      perp_deposit_ok_shape env st assets funds sender receiver st' msgs h
    refine ⟨a, recv, ha, ?_⟩
    rw [hmsgs, if_pos hzero]
  · rfl

/-- C7 witness: the general statement applied at the Scenario A inputs, both
hypotheses discharged by computation. -/
theorem C7_zero_supply_mint_witness :
    ∃ a recv,
      ([("USDT", 100000000)] : List (String × Nat)).find?
          (fun x => x.1 == scenarioAState.contract_info.quote_denom) = some a ∧
      [VaultMsg.mint "liquidity0000" "addr0001" 100000000000000] =
        [VaultMsg.mint scenarioAState.contract_info.liquidity_token recv
          ((((FPDecimal.fromNat a.2).scaled
              (-(scenarioAState.contract_info.quote_decimal : Int))).scaled 12).toUint)] :=
  C7_zero_supply_mint.1 scenarioAEnv scenarioAState [("USDT", 100000000)]
    [("USDT", 100000000)] "addr0001" none scenarioAState
    [VaultMsg.mint "liquidity0000" "addr0001" 100000000000000] rfl rfl

/-- Reaching the hardcap check of the perpetual vault's `deposit` with a
violating total fails with `ExceedHardcap`. -/
theorem perp_deposit_hardcap (env : Perp.Env) (st : Perp.State) (a0 : String × Nat)
    (funds : List (String × Nat)) (sender : String) (receiver : Option String)
    (s : FPDecimal) (recv : String)
    (hq : a0.1 = st.contract_info.quote_denom)
    (hd : check_denom a0.1 = none)
    (hsent : assert_coins_properly_sent funds [a0] [st.contract_info.quote_denom] = none)
    (hnz : ((FPDecimal.fromNat a0.2).scaled
      (-(st.contract_info.quote_decimal : Int))).isZero = false)
    (hconv : Perp.convert_to_shares env st
      ((FPDecimal.fromNat a0.2).scaled (-(st.contract_info.quote_decimal : Int)))
      st.contract_info.quote_decimal = .ok s)
    (hshare : (s.scaled 12).toUint ≠ 0)
    (hrecv : addr_opt_validate_or receiver sender = .ok recv)
    (hcap : env.total_supply + (s.scaled 12).toUint > st.contract_info.hardcap) :
    Perp.deposit env st [a0] funds sender receiver = .err .exceedHardcap := by
  have hfind : ([a0].find? (fun x => x.1 == st.contract_info.quote_denom)) = some a0 :=
    List.find?_cons_of_pos _ (by simp [hq])
  simp only [Perp.deposit, hd, hsent, hfind, hnz, hconv, hrecv, Bool.false_eq_true,
    if_false, beq_iff_eq, hshare]
  rw [if_pos hcap]

/-- Reaching the hardcap check of the spot vault's `deposit` with a violating
total fails with `ExceedHardcap`. -/
theorem spot_deposit_hardcap (env : Spot.Env) (st : Spot.State) (a0 a1 : String × Nat)
    (funds : List (String × Nat)) (sender : String) (receiver : Option String)
    (p0 p1 sdv actual0 actual1 s : FPDecimal) (u0 u1 r0 r1 : Nat) (recv : String)
    (hq0 : a0.1 = st.contract_info.base_denom)
    (hq1 : a1.1 = st.contract_info.quote_denom)
    (hne : st.contract_info.base_denom ≠ st.contract_info.quote_denom)
    (hd0 : check_denom a0.1 = none)
    (hd1 : check_denom a1.1 = none)
    (hsent : assert_coins_properly_sent funds [a0, a1]
      [st.contract_info.base_denom, st.contract_info.quote_denom] = none)
    (hp : Spot.get_prices env st = .ok (p0, p1))
    (hsdv : sdv = (((FPDecimal.fromNat a0.2).scaled
        (-(st.contract_info.base_decimal : Int))).mul p0).fpmin
      (((FPDecimal.fromNat a1.2).scaled (-(st.contract_info.quote_decimal : Int))).mul p1))
    (hac0 : actual0 = sdv.div p0) (hac1 : actual1 = sdv.div p1)
    (h0 : actual0.isZero = false) (h1 : actual1.isZero = false)
    (hu0 : u0 = (actual0.scaled (st.contract_info.base_decimal : Int)).toUint)
    (hu1 : u1 = (actual1.scaled (st.contract_info.quote_decimal : Int)).toUint)
    (hr0 : checkedSub a0.2 u0 = .ok r0) (hr1 : checkedSub a1.2 u1 = .ok r1)
    (hconv : Spot.convert_to_shares env st (actual0, actual1) (p0, p1)
      (st.contract_info.base_decimal, st.contract_info.quote_decimal) = .ok s)
    (hshare : (s.scaled 12).toUint ≠ 0)
    (hrecv : addr_opt_validate_or receiver sender = .ok recv)
    (hcap : env.total_supply + (s.scaled 12).toUint > st.contract_info.hardcap) :
    Spot.deposit env st [a0, a1] funds sender receiver = .err .exceedHardcap := by
  subst hsdv
  subst hac0
  subst hac1
  subst hu0
  subst hu1
  have hfind0 : ([a0, a1].find? (fun x => x.1 == st.contract_info.base_denom)) = some a0 :=
    List.find?_cons_of_pos _ (by simp [hq0])
  have hfind1 : ([a0, a1].find? (fun x => x.1 == st.contract_info.quote_denom)) = some a1 := by
    rw [List.find?_cons_of_neg _ (by simp [hq0, hne]), List.find?_cons_of_pos _ (by simp [hq1])]
  simp only [Spot.deposit, hd0, hd1, hsent, hfind0, hfind1, hp, h0, h1, hr0, hr1, hconv,
    hrecv, Bool.false_eq_true, Bool.or_self, if_false, beq_iff_eq, hshare]
  rw [if_pos hcap]

/-- A successful spot-vault `deposit` returns the storage unchanged: the
function never writes persisted state. -/
theorem spot_deposit_state_frame (env : Spot.Env) (st : Spot.State)
    (assets funds : List (String × Nat)) (sender : String) (receiver : Option String)
    (st' : Spot.State) (msgs : List VaultMsg)
    (h : Spot.deposit env st assets funds sender receiver = .ok (st', msgs)) :
    st' = st := by
  match assets with
  | [] => simp [Spot.deposit] at h
  | [a0] => simp [Spot.deposit] at h
  | a0 :: a1 :: a2 :: rest => simp [Spot.deposit] at h
  | [a0, a1] =>
    simp only [Spot.deposit] at h
    repeat' split at h
    all_goals cases h
    all_goals rfl

/-- C3: in both vaults, a deposit whose newly computed share amount would push
the LP total supply beyond the configured hardcap fails with the
`ExceedHardcap` error (so no mint instruction is emitted), and even a
successful deposit writes no persisted state at all - `VaultConfig` and the
fee counters are read-only throughout `deposit`, and an erroring invocation
commits nothing under the host's transactional semantics. -/
theorem C3_hardcap :
    (∀ (env : Perp.Env) (st : Perp.State) (a0 : String × Nat)
        (funds : List (String × Nat)) (sender : String) (receiver : Option String)
        (s : FPDecimal) (recv : String),
      a0.1 = st.contract_info.quote_denom →
      check_denom a0.1 = none →
      assert_coins_properly_sent funds [a0] [st.contract_info.quote_denom] = none →
      ((FPDecimal.fromNat a0.2).scaled
        (-(st.contract_info.quote_decimal : Int))).isZero = false →
      Perp.convert_to_shares env st
        ((FPDecimal.fromNat a0.2).scaled (-(st.contract_info.quote_decimal : Int)))
        st.contract_info.quote_decimal = .ok s →
      (s.scaled 12).toUint ≠ 0 →
      addr_opt_validate_or receiver sender = .ok recv →
      env.total_supply + (s.scaled 12).toUint > st.contract_info.hardcap →
      Perp.deposit env st [a0] funds sender receiver = .err .exceedHardcap) ∧
    (∀ (env : Spot.Env) (st : Spot.State) (a0 a1 : String × Nat)
        (funds : List (String × Nat)) (sender : String) (receiver : Option String)
        (p0 p1 sdv actual0 actual1 s : FPDecimal) (u0 u1 r0 r1 : Nat) (recv : String),
      a0.1 = st.contract_info.base_denom →
      a1.1 = st.contract_info.quote_denom →
      st.contract_info.base_denom ≠ st.contract_info.quote_denom →
      check_denom a0.1 = none →
      check_denom a1.1 = none →
      assert_coins_properly_sent funds [a0, a1]
        [st.contract_info.base_denom, st.contract_info.quote_denom] = none →
      Spot.get_prices env st = .ok (p0, p1) →
      sdv = (((FPDecimal.fromNat a0.2).scaled
          (-(st.contract_info.base_decimal : Int))).mul p0).fpmin
        (((FPDecimal.fromNat a1.2).scaled (-(st.contract_info.quote_decimal : Int))).mul p1) →
      actual0 = sdv.div p0 → actual1 = sdv.div p1 →
      actual0.isZero = false → actual1.isZero = false →
      u0 = (actual0.scaled (st.contract_info.base_decimal : Int)).toUint →
      u1 = (actual1.scaled (st.contract_info.quote_decimal : Int)).toUint →
      checkedSub a0.2 u0 = .ok r0 → checkedSub a1.2 u1 = .ok r1 →
      Spot.convert_to_shares env st (actual0, actual1) (p0, p1)
        (st.contract_info.base_decimal, st.contract_info.quote_decimal) = .ok s →
      (s.scaled 12).toUint ≠ 0 →
      addr_opt_validate_or receiver sender = .ok recv →
      env.total_supply + (s.scaled 12).toUint > st.contract_info.hardcap →
      Spot.deposit env st [a0, a1] funds sender receiver = .err .exceedHardcap) ∧
    (∀ (env : Perp.Env) (st : Perp.State) (assets funds : List (String × Nat))
        (sender : String) (receiver : Option String) (st' : Perp.State)
        (msgs : List VaultMsg),
      Perp.deposit env st assets funds sender receiver = .ok (st', msgs) → st' = st) ∧
    (∀ (env : Spot.Env) (st : Spot.State) (assets funds : List (String × Nat))
        (sender : String) (receiver : Option String) (st' : Spot.State)
        (msgs : List VaultMsg),
      Spot.deposit env st assets funds sender receiver = .ok (st', msgs) → st' = st) := by
  refine ⟨perp_deposit_hardcap, spot_deposit_hardcap, ?_, spot_deposit_state_frame⟩
  intro env st assets funds sender receiver st' msgs h
  exact (perp_deposit_ok_shape env st assets funds sender receiver st' msgs h).1

/-- C3 witness: at Scenario C inputs with the hardcap lowered to 100 share
units, the perpetual deposit of 95.000000 quote (computing 90×10¹² shares)
fails with `ExceedHardcap`; at Scenario B inputs with the hardcap lowered to
100 share units, the spot deposit (computing 180×10¹² shares) fails with
`ExceedHardcap`; and both vaults' successful deposits leave the state
unchanged at the Scenario A and Scenario B inputs. -/
theorem C3_hardcap_witness :
    Perp.deposit scenarioCEnv smallCapState [("USDT", 95000000)] [("USDT", 95000000)]
        "addr0001" none = .err .exceedHardcap ∧
    Spot.deposit scenarioBEnv smallCapSpotState
        [("INJ", 10000000000000000000), ("USDT", 100000000)]
        [("INJ", 10000000000000000000), ("USDT", 100000000)] "addr0001" none =
      .err .exceedHardcap ∧
    scenarioAState = scenarioAState ∧ scenarioBState = scenarioBState := by
  refine ⟨?_, ?_, ?_, ?_⟩
  · exact C3_hardcap.1 scenarioCEnv smallCapState ("USDT", 95000000) [("USDT", 95000000)]
      "addr0001" none ⟨90000000000000000000⟩ "addr0001" rfl rfl rfl rfl rfl
      (by decide) rfl (by decide)
  · exact C3_hardcap.2.1 scenarioBEnv smallCapSpotState ("INJ", 10000000000000000000)
      ("USDT", 100000000) [("INJ", 10000000000000000000), ("USDT", 100000000)]
      "addr0001" none (FPDecimal.fromNat 9) (FPDecimal.fromNat 1) ⟨90000000000000000000⟩
      ⟨10000000000000000000⟩ ⟨90000000000000000000⟩ ⟨180000000000000000000⟩
      10000000000000000000 90000000 0 10000000 "addr0001" rfl rfl (by decide) rfl rfl rfl
      rfl rfl rfl rfl rfl rfl rfl rfl rfl rfl rfl (by decide) rfl (by decide)
  · exact C3_hardcap.2.2.1 scenarioAEnv scenarioAState [("USDT", 100000000)]
      [("USDT", 100000000)] "addr0001" none scenarioAState
      [VaultMsg.mint "liquidity0000" "addr0001" 100000000000000] rfl
  · exact C3_hardcap.2.2.2 scenarioBEnv scenarioBState
      [("INJ", 10000000000000000000), ("USDT", 100000000)]
      [("INJ", 10000000000000000000), ("USDT", 100000000)] "addr0001" none scenarioBState
      [VaultMsg.mint "liquidity0000" "addr0001" 180000000000000,
       VaultMsg.bankSend "addr0001" [("USDT", 10000000)]] rfl

/-- `checkedSub` never yields a typed contract error: it either succeeds or
panics. -/
theorem checkedSub_ne_err (a b : Nat) (e : ContractError) : checkedSub a b ≠ .err e := by
  unfold checkedSub
  split <;> simp

/-- The perpetual vault's `try_swap` is rejected as unauthorized exactly for
non-owner callers. -/
theorem perp_try_swap_unauthorized_iff (env : Perp.Env) (st : Perp.State) (sender : String)
    (funds : List (String × Nat)) (long : Bool) (q pr mg : FPDecimal) :
    Perp.try_swap env st sender funds long q pr mg = .err .unauthorized ↔
      sender ≠ st.owner := by
  constructor
  · intro h heq
    simp only [Perp.try_swap, heq, beq_self_eq_true, Bool.not_true, Bool.false_eq_true,
      if_false] at h
    split at h
    · simp at h
    · split at h
      next e heq2 => exact checkedSub_ne_err _ _ _ heq2
      next m heq2 => simp at h
      next b heq2 =>
        split at h
        · simp at h
        · simp at h
  · intro hne
    simp [Perp.try_swap, hne]

/-- The perpetual vault's `try_cancel_order` is rejected as unauthorized
exactly for non-owner callers. -/
theorem perp_cancel_unauthorized_iff (env : Perp.Env) (st : Perp.State)
    (sender order_hash : String) :
    Perp.try_cancel_order env st sender order_hash = .err .unauthorized ↔
      sender ≠ st.owner := by
  constructor
  · intro h heq
    simp only [Perp.try_cancel_order, heq, beq_self_eq_true, Bool.not_true,
      Bool.false_eq_true, if_false] at h
    simp at h
  · intro hne
    simp [Perp.try_cancel_order, hne]

/-- The perpetual vault's `add_fee` is rejected as unauthorized exactly for
non-owner callers. -/
theorem perp_add_fee_unauthorized_iff (st : Perp.State) (sender : String) (fee : Nat) :
    Perp.add_fee st sender fee = .err .unauthorized ↔ sender ≠ st.owner := by
  constructor
  · intro h heq
    simp only [Perp.add_fee, heq, beq_self_eq_true, Bool.not_true, Bool.false_eq_true,
      if_false] at h
    simp at h
  · intro hne
    simp [Perp.add_fee, hne]

/-- The perpetual vault's `withdraw_fee` is rejected as unauthorized exactly
for non-owner callers. -/
theorem perp_withdraw_fee_unauthorized_iff (st : Perp.State) (sender : String) (fee : Nat) :
    Perp.withdraw_fee st sender fee = .err .unauthorized ↔ sender ≠ st.owner := by
  constructor
  · intro h heq
    simp only [Perp.withdraw_fee, heq, beq_self_eq_true, Bool.not_true, Bool.false_eq_true,
      if_false] at h
    split at h
    · simp at h
    · split at h
      · simp at h
      · simp at h
  · intro hne
    simp [Perp.withdraw_fee, hne]

/-- The spot vault's `try_swap` is rejected as unauthorized exactly for
non-owner callers. -/
theorem spot_try_swap_unauthorized_iff (env : Spot.Env) (st : Spot.State) (sender : String)
    (funds : List (String × Nat)) (buying : Bool) (q pr : FPDecimal) :
    Spot.try_swap env st sender funds buying q pr = .err .unauthorized ↔
      sender ≠ st.owner := by
  constructor
  · intro h heq
    simp only [Spot.try_swap, heq, beq_self_eq_true, Bool.not_true, Bool.false_eq_true,
      if_false] at h
    split at h
    · simp at h
    · split at h
      next e heq2 => exact checkedSub_ne_err _ _ _ heq2
      next m heq2 => simp at h
      next b heq2 =>
        split at h
        · simp at h
        · simp at h
  · intro hne
    simp [Spot.try_swap, hne]

/-- The spot vault's `try_cancel_order` is rejected as unauthorized exactly
for non-owner callers. -/
theorem spot_cancel_unauthorized_iff (env : Spot.Env) (st : Spot.State)
    (sender order_hash : String) :
    Spot.try_cancel_order env st sender order_hash = .err .unauthorized ↔
      sender ≠ st.owner := by
  constructor
  · intro h heq
    simp only [Spot.try_cancel_order, heq, beq_self_eq_true, Bool.not_true,
      Bool.false_eq_true, if_false] at h
    simp at h
  · intro hne
    simp [Spot.try_cancel_order, hne]

/-- The spot vault's `add_fee` is rejected as unauthorized exactly for
non-owner callers. -/
theorem spot_add_fee_unauthorized_iff (st : Spot.State) (sender : String)
    (base_fee quote_fee : Nat) :
    Spot.add_fee st sender base_fee quote_fee = .err .unauthorized ↔ sender ≠ st.owner := by
  constructor
  · intro h heq
    simp only [Spot.add_fee, heq, beq_self_eq_true, Bool.not_true, Bool.false_eq_true,
      if_false] at h
    simp at h
  · intro hne
    simp [Spot.add_fee, hne]

/-- The spot vault's `withdraw_fee` is rejected as unauthorized exactly for
non-owner callers. -/
theorem spot_withdraw_fee_unauthorized_iff (st : Spot.State) (sender : String)
    (base_fee quote_fee : Nat) :
    Spot.withdraw_fee st sender base_fee quote_fee = .err .unauthorized ↔
      sender ≠ st.owner := by
  constructor
  · intro h heq
    simp only [Spot.withdraw_fee, heq, beq_self_eq_true, Bool.not_true, Bool.false_eq_true,
      if_false] at h
    split at h
    · simp at h
    · split at h
      · simp at h
      · simp at h
  · intro hne
    simp [Spot.withdraw_fee, hne]

/-- C5: in both vaults, every owner-gated operation (Swap, CancelOrder,
AddFee, WithdrawFee) returns the `Unauthorized` error precisely when the
caller is not the configured owner - so every non-owner caller is rejected
with the authorization error, and the owner is never rejected on
authorization grounds. -/
theorem C5_owner_gated_operations :
    (∀ (env : Perp.Env) (st : Perp.State) (sender : String)
        (funds : List (String × Nat)) (long : Bool) (q pr mg : FPDecimal),
      Perp.try_swap env st sender funds long q pr mg = .err .unauthorized ↔
        sender ≠ st.owner) ∧
    (∀ (env : Perp.Env) (st : Perp.State) (sender order_hash : String),
      Perp.try_cancel_order env st sender order_hash = .err .unauthorized ↔
        sender ≠ st.owner) ∧
    (∀ (st : Perp.State) (sender : String) (fee : Nat),
      Perp.add_fee st sender fee = .err .unauthorized ↔ sender ≠ st.owner) ∧
    (∀ (st : Perp.State) (sender : String) (fee : Nat),
      Perp.withdraw_fee st sender fee = .err .unauthorized ↔ sender ≠ st.owner) ∧
    (∀ (env : Spot.Env) (st : Spot.State) (sender : String)
        (funds : List (String × Nat)) (buying : Bool) (q pr : FPDecimal),
      Spot.try_swap env st sender funds buying q pr = .err .unauthorized ↔
        sender ≠ st.owner) ∧
    (∀ (env : Spot.Env) (st : Spot.State) (sender order_hash : String),
      Spot.try_cancel_order env st sender order_hash = .err .unauthorized ↔
        sender ≠ st.owner) ∧
    (∀ (st : Spot.State) (sender : String) (base_fee quote_fee : Nat),
      Spot.add_fee st sender base_fee quote_fee = .err .unauthorized ↔
        sender ≠ st.owner) ∧
    (∀ (st : Spot.State) (sender : String) (base_fee quote_fee : Nat),
      Spot.withdraw_fee st sender base_fee quote_fee = .err .unauthorized ↔
        sender ≠ st.owner) :=
  ⟨perp_try_swap_unauthorized_iff, perp_cancel_unauthorized_iff,
    perp_add_fee_unauthorized_iff, perp_withdraw_fee_unauthorized_iff,
    spot_try_swap_unauthorized_iff, spot_cancel_unauthorized_iff,
    spot_add_fee_unauthorized_iff, spot_withdraw_fee_unauthorized_iff⟩

/-- C5 witness: at a concrete state (owner `addr0000`), the non-owner
`addr0001` is rejected as unauthorized on the perpetual swap, and the owner's
swap outcome is never the unauthorized error. -/
theorem C5_owner_gated_operations_witness :
    Perp.try_swap scenarioCEnv scenarioCState "addr0001" [] true (FPDecimal.fromNat 1)
        (FPDecimal.fromNat 1) (FPDecimal.fromNat 1) = .err .unauthorized ∧
    Spot.withdraw_fee scenarioBState "addr0001" 1 1 = .err .unauthorized ∧
    Perp.try_swap scenarioCEnv scenarioCState "addr0000" [] true (FPDecimal.fromNat 1)
        (FPDecimal.fromNat 1) (FPDecimal.fromNat 1) ≠ .err .unauthorized :=
  ⟨(C5_owner_gated_operations.1 scenarioCEnv scenarioCState "addr0001" [] true
      (FPDecimal.fromNat 1) (FPDecimal.fromNat 1) (FPDecimal.fromNat 1)).mpr (by decide),
   (C5_owner_gated_operations.2.2.2.2.2.2.2 scenarioBState "addr0001" 1 1).mpr (by decide),
   fun h => absurd ((C5_owner_gated_operations.1 scenarioCEnv scenarioCState "addr0000" []
      true (FPDecimal.fromNat 1) (FPDecimal.fromNat 1) (FPDecimal.fromNat 1)).mp h)
     (by simp [scenarioCState])⟩

/-- C6: in both vaults, a token-creation reply that arrives while the
liquidity-token address field is already bound (non-empty) fails with the
authorization error before the payload is even examined, so the bound address
is never overwritten (an erroring invocation commits nothing). -/
theorem C6_token_binds_once :
    (∀ (st : Perp.State) (data : TokenReplyData),
      st.contract_info.liquidity_token ≠ "" →
      Perp.handle_instantiate_token_reply st data = .err .unauthorized) ∧
    (∀ (st : Spot.State) (data : TokenReplyData),
      st.contract_info.liquidity_token ≠ "" →
      Spot.handle_instantiate_token_reply st data = .err .unauthorized) := by
  constructor
  · intro st data h
    simp [Perp.handle_instantiate_token_reply, h]
  · intro st data h
    simp [Spot.handle_instantiate_token_reply, h]

/-- C6 witness: the guard fires at the Scenario C and Scenario B states, whose
liquidity-token address is bound to `liquidity0000`. -/
theorem C6_token_binds_once_witness :
    Perp.handle_instantiate_token_reply scenarioCState (.address "liquidity0001") =
        .err .unauthorized ∧
    Spot.handle_instantiate_token_reply scenarioBState (.address "liquidity0001") =
        .err .unauthorized :=
  ⟨C6_token_binds_once.1 scenarioCState (.address "liquidity0001") (by decide),
   C6_token_binds_once.2 scenarioBState (.address "liquidity0001") (by decide)⟩

/-- C9: the tradable balance is always the raw queried balance minus the
accrued fee counter, computed with unchecked `Uint128` subtraction; whenever a
fee counter exceeds the corresponding raw balance, every operation using the
tradable balance - the owner's swap, the nonzero-supply deposit share math,
the withdrawal refund, and the liquidity queries - aborts with an arithmetic
underflow panic instead of a typed contract error.  Such states are reachable
because `add_fee` increments the counter for the owner without any
upper-bound check against the actual balance. -/
theorem C9_fee_underflow_panics :
    (∀ (env : Perp.Env) (st : Perp.State) (sender : String)
        (funds : List (String × Nat)) (long : Bool) (q pr mg : FPDecimal),
      sender = st.owner → funds = [] →
      env.bank_balance st.contract_info.quote_denom < st.fee_collected →
      Perp.try_swap env st sender funds long q pr mg =
        .panic "attempt to subtract with overflow") ∧
    (∀ (env : Perp.Env) (st : Perp.State) (amount : FPDecimal) (d : Nat),
      env.total_supply ≠ 0 →
      env.bank_balance st.contract_info.quote_denom < st.fee_collected →
      Perp.convert_to_shares env st amount d = .panic "attempt to subtract with overflow") ∧
    (∀ (env : Perp.Env) (st : Perp.State) (info_sender sender : String) (amount : Nat),
      info_sender = st.contract_info.liquidity_token → amount ≠ 0 →
      env.bank_balance st.contract_info.quote_denom < st.fee_collected →
      Perp.withdraw env st info_sender sender amount =
        .panic "attempt to subtract with overflow") ∧
    (∀ (env : Perp.Env) (st : Perp.State) (share : Nat),
      env.bank_balance st.contract_info.quote_denom < st.fee_collected →
      Perp.get_tokens_for_shares env st share =
        .panic "attempt to subtract with overflow") ∧
    (∀ (env : Perp.Env) (st : Perp.State),
      env.bank_balance st.contract_info.quote_denom < st.fee_collected →
      Perp.get_total_liquidity env st = .panic "attempt to subtract with overflow") ∧
    (∀ (st : Perp.State) (sender : String) (fee : Nat),
      sender = st.owner →
      Perp.add_fee st sender fee =
        .ok ({ st with fee_collected := st.fee_collected + fee }, [])) ∧
    (∀ (env : Spot.Env) (st : Spot.State) (amounts prices : FPDecimal × FPDecimal)
        (decimals : Nat × Nat),
      env.total_supply ≠ 0 →
      env.bank_balance st.contract_info.base_denom < st.base_fee_collected →
      Spot.convert_to_shares env st amounts prices decimals =
        .panic "attempt to subtract with overflow") ∧
    (∀ (env : Spot.Env) (st : Spot.State) (share total_share : Nat),
      env.bank_balance st.contract_info.base_denom < st.base_fee_collected →
      Spot.get_share_in_assets env st share total_share =
        .panic "attempt to subtract with overflow") ∧
    (∀ (env : Spot.Env) (st : Spot.State) (share : Nat),
      env.bank_balance st.contract_info.base_denom < st.base_fee_collected →
      Spot.get_tokens_for_shares env st share =
        .panic "attempt to subtract with overflow") := by
  refine ⟨?_, ?_, ?_, ?_, ?_, ?_, ?_, ?_, ?_⟩
  · intro env st sender funds long q pr mg hown hfunds hlt
    subst hown
    subst hfunds
    simp [Perp.try_swap, checkedSub, Nat.not_le.mpr hlt]
  · intro env st amount d hsup hlt
    simp only [Perp.convert_to_shares]
    rw [if_neg (fun hz => hsup ((fromNat_scaled12_isZero_iff _).mp hz))]
    simp [checkedSub, Nat.not_le.mpr hlt]
  · intro env st info_sender sender amount hsend hamt hlt
    subst hsend
    simp [Perp.withdraw, Perp.get_share_in_assets, checkedSub, hamt, Nat.not_le.mpr hlt]
  · intro env st share hlt
    simp [Perp.get_tokens_for_shares, checkedSub, Nat.not_le.mpr hlt]
  · intro env st hlt
    simp [Perp.get_total_liquidity, checkedSub, Nat.not_le.mpr hlt]
  · intro st sender fee hown
    subst hown
    simp [Perp.add_fee]
  · intro env st amounts prices decimals hsup hlt
    simp only [Spot.convert_to_shares]
    rw [if_neg (fun hz => hsup ((fromNat_scaled12_isZero_iff _).mp hz))]
    simp [checkedSub, Nat.not_le.mpr hlt]
  · intro env st share total_share hlt
    simp [Spot.get_share_in_assets, checkedSub, Nat.not_le.mpr hlt]
  · intro env st share hlt
    simp [Spot.get_tokens_for_shares, checkedSub, Nat.not_le.mpr hlt]

/-- C9 witness: at a state whose accrued fee 10.000000 exceeds the raw quote
balance 5.000000 (perpetual vault) and whose base fee counter 1 exceeds the
zero raw base balance (spot vault), all the listed operations panic, and the
owner can reach such a state because `add_fee` succeeds unchecked. -/
theorem C9_fee_underflow_panics_witness :
    Perp.try_swap lowBalanceEnv scenarioCState "addr0000" [] true (FPDecimal.fromNat 1)
        (FPDecimal.fromNat 1) (FPDecimal.fromNat 1) =
      .panic "attempt to subtract with overflow" ∧
    Perp.convert_to_shares lowBalanceEnv scenarioCState (FPDecimal.fromNat 95) 6 =
      .panic "attempt to subtract with overflow" ∧
    Perp.withdraw lowBalanceEnv scenarioCState "liquidity0000" "addr0001" 90000000000000 =
      .panic "attempt to subtract with overflow" ∧
    Perp.get_tokens_for_shares lowBalanceEnv scenarioCState 90000000000000 =
      .panic "attempt to subtract with overflow" ∧
    Perp.get_total_liquidity lowBalanceEnv scenarioCState =
      .panic "attempt to subtract with overflow" ∧
    Perp.add_fee scenarioCState "addr0000" 1000000000 =
      .ok ({ scenarioCState with fee_collected := 10000000 + 1000000000 }, []) ∧
    Spot.convert_to_shares spotLowBalanceEnv spotFeeState
        (FPDecimal.fromNat 1, FPDecimal.fromNat 1) (FPDecimal.fromNat 1, FPDecimal.fromNat 1)
        (18, 6) = .panic "attempt to subtract with overflow" ∧
    Spot.get_share_in_assets spotLowBalanceEnv spotFeeState 90000000000000 180000000000000 =
      .panic "attempt to subtract with overflow" ∧
    Spot.get_tokens_for_shares spotLowBalanceEnv spotFeeState 90000000000000 =
      .panic "attempt to subtract with overflow" :=
  ⟨C9_fee_underflow_panics.1 lowBalanceEnv scenarioCState "addr0000" [] true
      (FPDecimal.fromNat 1) (FPDecimal.fromNat 1) (FPDecimal.fromNat 1) rfl rfl (by decide),
   C9_fee_underflow_panics.2.1 lowBalanceEnv scenarioCState (FPDecimal.fromNat 95) 6
      (by decide) (by decide),
   C9_fee_underflow_panics.2.2.1 lowBalanceEnv scenarioCState "liquidity0000" "addr0001"
      90000000000000 rfl (by decide) (by decide),
   C9_fee_underflow_panics.2.2.2.1 lowBalanceEnv scenarioCState 90000000000000 (by decide),
   C9_fee_underflow_panics.2.2.2.2.1 lowBalanceEnv scenarioCState (by decide),
   C9_fee_underflow_panics.2.2.2.2.2.1 scenarioCState "addr0000" 1000000000 rfl,
   C9_fee_underflow_panics.2.2.2.2.2.2.1 spotLowBalanceEnv spotFeeState
      (FPDecimal.fromNat 1, FPDecimal.fromNat 1) (FPDecimal.fromNat 1, FPDecimal.fromNat 1)
      (18, 6) (by decide) (by decide),
   C9_fee_underflow_panics.2.2.2.2.2.2.2.1 spotLowBalanceEnv spotFeeState 90000000000000
      180000000000000 (by decide),
   C9_fee_underflow_panics.2.2.2.2.2.2.2.2 spotLowBalanceEnv spotFeeState 90000000000000
      (by decide)⟩

/-- C10: in the perpetual vault, every withdrawal under a non-`INJ` quote
denom computes the proportional share of the contract's `INJ` balance
(`INJ_balance * burned_share / total_share`) and, when that amount is
nonzero, emits a bank transfer of it to the withdrawer after the quote
refund, alongside the burn instruction. -/
theorem C10_inj_side_transfer (env : Perp.Env) (st : Perp.State)
    (info_sender sender : String) (amount : Nat)
    (hsend : info_sender = st.contract_info.liquidity_token)
    (hamt : amount ≠ 0)
    (hfee : st.fee_collected ≤ env.bank_balance st.contract_info.quote_denom)
    (hq : st.contract_info.quote_denom ≠ "INJ") :
    Perp.withdraw env st info_sender sender amount =
      .ok (st, [VaultMsg.burn st.contract_info.liquidity_token amount]
        ++ (if (env.bank_balance st.contract_info.quote_denom - st.fee_collected) * amount /
                env.total_supply ≠ 0 then
              [VaultMsg.bankSend sender [(st.contract_info.quote_denom,
                (env.bank_balance st.contract_info.quote_denom - st.fee_collected) * amount /
                  env.total_supply)]]
            else [])
        ++ (if env.bank_balance "INJ" * amount / env.total_supply ≠ 0 then
              [VaultMsg.bankSend sender [("INJ",
                env.bank_balance "INJ" * amount / env.total_supply)]]
            else [])) := by
  subst hsend
  simp [Perp.withdraw, Perp.get_share_in_assets, checkedSub, hamt, hfee, hq, bne_iff_ne]

/-- C10 witness: quote balance 100.000000 (fee 10.000000), `INJ` balance
10×10¹⁸, supply 180×10¹², burn 90×10¹²: the withdrawer receives 45.000000
quote and 5×10¹⁸ `INJ` alongside the burn. -/
theorem C10_inj_side_transfer_witness :
    Perp.withdraw injRichEnv scenarioCState "liquidity0000" "addr0001" 90000000000000 =
      .ok (scenarioCState,
        [VaultMsg.burn "liquidity0000" 90000000000000,
         VaultMsg.bankSend "addr0001" [("USDT", 45000000)],
         VaultMsg.bankSend "addr0001" [("INJ", 5000000000000000000)]]) :=
  (C10_inj_side_transfer injRichEnv scenarioCState "liquidity0000" "addr0001"
      90000000000000 rfl (by decide) (by decide) (by decide)).trans (by decide)

/-- C4: the claim asserts that the spot vault's incidental third-asset `INJ`
"fee amount" is never actually transferred and that a withdrawal emits only
the burn and the base/quote refunds.  The code at contract.rs lines 639-641
does transfer it whenever it is nonzero: at an ATOM/USDT configuration
(neither denom `INJ`) holding 10×10¹⁸ `INJ`, burning 90×10¹² of the 180×10¹²
supply emits a fourth message sending 5×10¹⁸ `INJ` to the withdrawer, so the
claim is false. -/
theorem C4_counterexample :
    Spot.withdraw atomEnv atomState "liquidity0000" "addr0001" 90000000000000 =
      .ok (atomState,
        [VaultMsg.burn "liquidity0000" 90000000000000,
         VaultMsg.bankSend "addr0001" [("ATOM", 50000000)],
         VaultMsg.bankSend "addr0001" [("USDT", 45000000)],
         VaultMsg.bankSend "addr0001" [("INJ", 5000000000000000000)]]) := by
  rfl

/-- C4 (amended): in every spot-vault withdrawal, when neither configured
denom is `INJ`, the incidental third-asset `INJ` amount
(`INJ_balance * burned_share / total_share`) IS transferred to the withdrawer
whenever it is nonzero: the emitted messages are the burn, the nonzero base
and quote refunds, and then the nonzero `INJ` amount. -/
theorem C4_amended_inj_transfer (env : Spot.Env) (st : Spot.State)
    (info_sender sender : String) (amount : Nat)
    (hsend : info_sender = st.contract_info.liquidity_token)
    (hamt : amount ≠ 0)
    (hfee0 : st.base_fee_collected ≤ env.bank_balance st.contract_info.base_denom)
    (hfee1 : st.quote_fee_collected ≤ env.bank_balance st.contract_info.quote_denom)
    (hb : st.contract_info.base_denom ≠ "INJ")
    (hq : st.contract_info.quote_denom ≠ "INJ") :
    Spot.withdraw env st info_sender sender amount =
      .ok (st, [VaultMsg.burn st.contract_info.liquidity_token amount]
        ++ (if (env.bank_balance st.contract_info.base_denom - st.base_fee_collected) *
                amount / env.total_supply ≠ 0 then
              [VaultMsg.bankSend sender [(st.contract_info.base_denom,
                (env.bank_balance st.contract_info.base_denom - st.base_fee_collected) *
                  amount / env.total_supply)]]
            else [])
        ++ (if (env.bank_balance st.contract_info.quote_denom - st.quote_fee_collected) *
                amount / env.total_supply ≠ 0 then
              [VaultMsg.bankSend sender [(st.contract_info.quote_denom,
                (env.bank_balance st.contract_info.quote_denom - st.quote_fee_collected) *
                  amount / env.total_supply)]]
            else [])
        ++ (if env.bank_balance "INJ" * amount / env.total_supply ≠ 0 then
              [VaultMsg.bankSend sender [("INJ",
                env.bank_balance "INJ" * amount / env.total_supply)]]
            else [])) := by
  subst hsend
  simp [Spot.withdraw, Spot.get_share_in_assets, checkedSub, hamt, hfee0, hfee1, hb, hq,
    bne_iff_ne]

/-- C4 (amended) witness: the general statement applied at the ATOM/USDT
configuration of the counterexample. -/
theorem C4_amended_inj_transfer_witness :
    Spot.withdraw atomEnv atomState "liquidity0000" "addr0001" 90000000000000 =
      .ok (atomState,
        [VaultMsg.burn "liquidity0000" 90000000000000,
         VaultMsg.bankSend "addr0001" [("ATOM", 50000000)],
         VaultMsg.bankSend "addr0001" [("USDT", 45000000)],
         VaultMsg.bankSend "addr0001" [("INJ", 5000000000000000000)]]) :=
  (C4_amended_inj_transfer atomEnv atomState "liquidity0000" "addr0001" 90000000000000
      rfl (by decide) (by decide) (by decide) (by decide) (by decide)).trans (by decide)

/-- C8: in every spot-vault deposit with nonzero declared amounts and positive
oracle prices, if either recomputed "actual" amount - the deposit value
`min(value₀, value₁)` divided by that asset's price - truncates to zero, the
deposit is rejected with the zero-amount (`InvalidZeroAmount`) error. -/
theorem C8_zero_actual_rejected (env : Spot.Env) (st : Spot.State) (a0 a1 : String × Nat)
    (funds : List (String × Nat)) (sender : String) (receiver : Option String)
    (p0 p1 sdv actual0 actual1 : FPDecimal)
    (hq0 : a0.1 = st.contract_info.base_denom)
    (hq1 : a1.1 = st.contract_info.quote_denom)
    (hne : st.contract_info.base_denom ≠ st.contract_info.quote_denom)
    (hd0 : check_denom a0.1 = none)
    (hd1 : check_denom a1.1 = none)
    (hsent : assert_coins_properly_sent funds [a0, a1]
      [st.contract_info.base_denom, st.contract_info.quote_denom] = none)
    (hp : Spot.get_prices env st = .ok (p0, p1))
    (hpos0 : 0 < p0.num) (hpos1 : 0 < p1.num)
    (ha0 : a0.2 ≠ 0) (ha1 : a1.2 ≠ 0)
    (hsdv : sdv = (((FPDecimal.fromNat a0.2).scaled
        (-(st.contract_info.base_decimal : Int))).mul p0).fpmin
      (((FPDecimal.fromNat a1.2).scaled (-(st.contract_info.quote_decimal : Int))).mul p1))
    (hac0 : actual0 = sdv.div p0) (hac1 : actual1 = sdv.div p1)
    (hzero : actual0.isZero = true ∨ actual1.isZero = true) :
    Spot.deposit env st [a0, a1] funds sender receiver = .err .invalidZeroAmount := by
  subst hsdv
  subst hac0
  subst hac1
  have hfind0 : ([a0, a1].find? (fun x => x.1 == st.contract_info.base_denom)) = some a0 :=
    List.find?_cons_of_pos _ (by simp [hq0])
  have hfind1 : ([a0, a1].find? (fun x => x.1 == st.contract_info.quote_denom)) = some a1 := by
    rw [List.find?_cons_of_neg _ (by simp [hq0, hne]), List.find?_cons_of_pos _ (by simp [hq1])]
  simp only [Spot.deposit, hd0, hd1, hsent, hfind0, hfind1, hp]
  rw [if_pos (Bool.or_eq_true _ _ ▸ hzero)]

/-- C8 witness: ATOM/USDT vault, declared amounts 1000 ATOM-units and 1
USDT-unit, base price 1000, quote price 10⁻¹⁸ (the smallest positive
`FPDecimal`): the quote leg's value truncates to zero, hence both actual
amounts are zero and the deposit is rejected with `InvalidZeroAmount`. -/
theorem C8_zero_actual_rejected_witness :
    Spot.deposit extremeEnv atomState [("ATOM", 1000), ("USDT", 1)]
        [("ATOM", 1000), ("USDT", 1)] "addr0001" none = .err .invalidZeroAmount :=
  C8_zero_actual_rejected extremeEnv atomState ("ATOM", 1000) ("USDT", 1)
    [("ATOM", 1000), ("USDT", 1)] "addr0001" none (FPDecimal.fromNat 1000) ⟨1⟩ ⟨0⟩ ⟨0⟩ ⟨0⟩
    rfl rfl (by decide) rfl rfl rfl rfl (by decide) (by decide) (by decide) (by decide)
    rfl rfl rfl (Or.inl rfl)

/-- C1 (amended): with total supply 180,000000000000 shares, raw quote balance
200.000000, accrued fee 10.000000 and 90,000000000000 shares burned, the
emitted quote refund equals exactly 95.000000 quote units, computed as
`(200 - 10) * 90 / 180`. -/
theorem C1_amended_refund :
    Perp.withdraw scenarioCEnv scenarioCState "liquidity0000" "addr0001" 90000000000000 =
      .ok (scenarioCState,
        [.burn "liquidity0000" 90000000000000,
         .bankSend "addr0001"
           [("USDT", (200000000 - 10000000) * 90000000000000 / 180000000000000)]]) := by
  rfl

end Vault
